import Mathlib

/-!
Verification of the dragdev-studios/custom.py repository: a shallow
embedding in Lean 4 of the two source files `src/dds/custom/bot.py`
(the `QOLBot` queue worker and the `VerboseBot` logging bot) and
`src/ext.py` (the `wf_msg_or_reaction` race helper and the `Mapping`
dict subclass), together with theorems about the embedded code.

The Python code runs on a single cooperative event loop, so each
coroutine is embedded as a pure Lean function: the queue worker as a
structural recursion over the FIFO list of enqueued jobs, and the race
helper as a function of a timed trace of incoming events.  Machine
floats that only ever hold exact decimal values and are compared with
`<=` are modelled as rationals.
-/

namespace CustomPy

/-! ## QOLBot queue worker (src/dds/custom/bot.py, QOLBot.__queue_worker)

A job placed on `asyncio.Queue` is an awaitable; awaiting it either
completes normally or raises.  We model a job by its identity and that
outcome.  The worker trace records, in order, the observable actions of
the drain loop: a job starting to be awaited, a job finishing normally,
the `except` clause logging a failure with `print_exc`, and the
`finally` clause calling `queue.task_done()`. -/

/-- Outcome of awaiting one job: normal completion or a raised exception
carrying a message. -/
inductive JobOutcome where
  | ok : JobOutcome
  | raises (msg : String) : JobOutcome
deriving DecidableEq, Repr

/-- A queued job: its identity plus what happens when it is awaited. -/
structure Job where
  jid : Nat
  outcome : JobOutcome
deriving DecidableEq, Repr

/-- Observable events of the queue worker loop. -/
inductive WEvent where
  | started (jid : Nat) : WEvent
  | finished (jid : Nat) : WEvent
  | loggedError (jid : Nat) : WEvent
  | taskDone : WEvent
deriving DecidableEq, Repr

/-- Awaiting a job (`await job`): the events it contributes and the
exception it raises, if any. -/
def awaitJob (j : Job) : List WEvent × Option String :=
  match j.outcome with
  | JobOutcome.ok => ([WEvent.started j.jid, WEvent.finished j.jid], none)
  | JobOutcome.raises m => ([WEvent.started j.jid], some m)

/-- One iteration of the worker loop body:
`try: await job except (Exception, BaseException): print(...); print_exc()
finally: queue.task_done()`.  Returns the events of the iteration and
the exception escaping the iteration; the `except` clause catches every
exception, so the second component is always `none`. -/
def runIteration (j : Job) : List WEvent × Option String :=
  match awaitJob j with
  | (ev, none) => (ev ++ [WEvent.taskDone], none)
  | (ev, some _) => (ev ++ [WEvent.loggedError j.jid, WEvent.taskDone], none)

/-- The drain loop `while True: job = await self.queue.get(); ...` run
over the whole FIFO queue contents: `asyncio.Queue.get` hands back the
enqueued jobs in enqueue order, and the single worker task processes
them one iteration at a time. -/
def queue_worker : List Job → List WEvent
  | [] => []
  | j :: rest => (runIteration j).1 ++ queue_worker rest

/-- The jobs awaited by the worker, in the order their awaits started. -/
def startedIds : List WEvent → List Nat
  | [] => []
  | WEvent.started i :: rest => i :: startedIds rest
  | _ :: rest => startedIds rest

/-- A trace is serial when it decomposes into per-job blocks: each
started job is finished (or its failure logged) and its queue slot
marked done before the next job starts. -/
def serialOK : List WEvent → Bool
  | [] => true
  | WEvent.started i :: WEvent.finished j :: WEvent.taskDone :: rest =>
      i == j && serialOK rest
  | WEvent.started i :: WEvent.loggedError j :: WEvent.taskDone :: rest =>
      i == j && serialOK rest
  | _ => false

/-! ## wf_msg_or_reaction (src/ext.py)

The helper races two `bot.wait_for` calls — one for a `message` event,
one for a `reaction_add` event — under `asyncio.wait(...,
timeout=timeout or 120.0, return_when="FIRST_COMPLETED")`.  The
surrounding event loop is modelled by a trace: a time-ordered list of
incoming gateway events, each stamped with a rational arrival time.  A
`wait_for` task resolves at the first trace event of its kind whose
check passes; `asyncio.wait` returns the task that resolved earliest,
provided that happened within the timeout, and an empty `done` set
otherwise.  Discord objects are modelled by the fields the code reads;
an emoji is modelled by its string form `str(r.emoji)`. -/

/-- The fields of a discord User the code reads (equality of users is
identity by id). -/
structure User where
  uid : Nat
deriving DecidableEq, Repr

/-- The fields of a discord text channel the code reads. -/
structure Channel where
  cid : Nat
deriving DecidableEq, Repr

/-- The fields of a discord Message the code reads. -/
structure Message where
  mid : Nat
  content : String
  author : User
  channel : Channel
deriving DecidableEq, Repr

/-- The fields of a discord Reaction the code reads: `str(r.emoji)` and
`r.message.id`. -/
structure Reaction where
  emoji : String
  messageId : Nat
deriving DecidableEq, Repr

/-- The fields of a commands.Context the code reads. -/
structure Ctx where
  author : User
  channel : Channel
  message : Message
deriving DecidableEq, Repr

/-- A gateway event the bot can receive while the helper waits. -/
inductive Event where
  | msg (m : Message) : Event
  | reaction (r : Reaction) (u : User) : Event
deriving DecidableEq, Repr

/-- A timed trace of gateway events, in arrival order. -/
abbrev Trace := List (ℚ × Event)

/-- The `{content: emoji}` keyword pairs, as an association list. -/
abbrev Pairs := List (String × String)

/-- Python `str.lower` on one character, over the ASCII letters the
repository's prompts use. -/
def lowerChar (c : Char) : Char :=
  if 65 ≤ c.toNat && c.toNat ≤ 90 then Char.ofNat (c.toNat + 32) else c

/-- Python `str.lower`: lowercase every character. -/
def pyLower (s : String) : String :=
  String.mk (s.data.map lowerChar)

/-- The auto-generated message check:
`lambda m: m.content and m.content.lower() in pairs.keys() and
m.author == ctx.author and m.channel == ctx.channel`
(an empty content string is falsy). -/
def defaultMessageCheck (ctx : Ctx) (pairs : Pairs) (m : Message) : Bool :=
  m.content ≠ "" && (pairs.map Prod.fst).contains (pyLower m.content) &&
    m.author == ctx.author && m.channel == ctx.channel

/-- The auto-generated `reaction_check(r, u)`: the emoji string is among
the pair values, the reacting user is the invoker, and the reaction is
on the listened-for message. -/
def defaultReactionCheck (ctx : Ctx) (message : Message) (pairs : Pairs)
    (r : Reaction) (u : User) : Bool :=
  if (pairs.map Prod.snd).contains r.emoji then
    if u.uid == ctx.author.uid then
      if r.messageId == message.mid then true else false
    else false
  else false

/-- Resolution of `ctx.bot.wait_for "message"`: the first trace
event that is a message passing the check, with its arrival time. -/
def firstMsgMatch (check : Message → Bool) : Trace → Option (ℚ × Message)
  | [] => none
  | (t, Event.msg m) :: rest =>
      if check m then some (t, m) else firstMsgMatch check rest
  | _ :: rest => firstMsgMatch check rest

/-- Resolution of `ctx.bot.wait_for "reaction_add"`: the first trace
event that is a reaction passing the check, with its arrival time. -/
def firstReactMatch (check : Reaction → User → Bool) :
    Trace → Option (ℚ × Reaction)
  | [] => none
  | (t, Event.reaction r u) :: rest =>
      if check r u then some (t, r) else firstReactMatch check rest
  | _ :: rest => firstReactMatch check rest

/-- The value `done.pop().result()` resolves to. -/
inductive Resolved where
  | message (m : Message) : Resolved
  | reaction (r : Reaction) : Resolved
deriving DecidableEq, Repr

/-- Semantics of `asyncio.wait(tasks, timeout=eff,
return_when="FIRST_COMPLETED")` followed by `done.pop()`: the earliest
resolving task, if it resolves within the timeout, else `none` (empty
`done` set).  When both tasks would resolve at the same instant the
model takes the message task; the event loop dispatches events one at a
time, so the claims below only ever rely on strictly ordered times. -/
def raceOutcome (eff : ℚ) (tm : Option (ℚ × Message))
    (tr : Option (ℚ × Reaction)) : Option Resolved :=
  match tm, tr with
  | none, none => none
  | some (t, m), none => if t ≤ eff then some (Resolved.message m) else none
  | none, some (t, r) => if t ≤ eff then some (Resolved.reaction r) else none
  | some (t1, m), some (t2, r) =>
      if t1 ≤ t2 then
        if t1 ≤ eff then some (Resolved.message m) else none
      else if t2 ≤ eff then some (Resolved.reaction r) else none

/-- Exceptions the helper can raise. -/
inductive PyError where
  | timeoutError : PyError
  | keyError (k : String) : PyError
deriving DecidableEq, Repr

/-- The `timeout or 120.0` expression: a falsy timeout (`None`, `0`,
`0.0`) is replaced by `120.0`. -/
def effTimeout (timeout : Option ℚ) : ℚ :=
  match timeout with
  | none => 120
  | some t => if t = 0 then 120 else t

/-- The checks actually used: `message = message or ctx.message`, then
`if not checks:` install the two auto-generated checks closing over the
resolved message. -/
def resolvedChecks (ctx : Ctx)
    (checks : Option ((Message → Bool) × (Reaction → User → Bool)))
    (message : Option Message) (pairs : Pairs) :
    (Message → Bool) × (Reaction → User → Bool) :=
  checks.getD
    (defaultMessageCheck ctx pairs,
      defaultReactionCheck ctx (message.getD ctx.message) pairs)

/-- The body of `wf_msg_or_reaction`, given the trace of gateway events
the loop delivers while it waits.  Mirrors src/ext.py line by line:
resolve `message or ctx.message`; build the default checks when none
are supplied; race the two waits with `timeout or 120.0`; raise
`asyncio.TimeoutError` when `done` is empty; on a message return
`pairs[resolved.content.lower()]`, on a reaction return its emoji.
The checks are pure, so `result.exception()` can only be `None` and
that branch drops out. -/
def wf_msg_or_reaction (ctx : Ctx) (timeout : Option ℚ)
    (checks : Option ((Message → Bool) × (Reaction → User → Bool)))
    (message : Option Message) (pairs : Pairs) (trace : Trace) :
    Except PyError String :=
  let cks := resolvedChecks ctx checks message pairs
  match raceOutcome (effTimeout timeout) (firstMsgMatch cks.1 trace)
      (firstReactMatch cks.2 trace) with
  | none => Except.error PyError.timeoutError
  | some (Resolved.message m) =>
      match List.lookup (pyLower m.content) pairs with
      | some v => Except.ok v
      | none => Except.error (PyError.keyError (pyLower m.content))
  | some (Resolved.reaction r) => Except.ok r.emoji

/-- Whether a gateway event matches either of the two checks in use:
the events that can resolve one of the two raced `wait_for` tasks. -/
def matchesChecks (ck1 : Message → Bool) (ck2 : Reaction → User → Bool) :
    Event → Bool
  | Event.msg m => ck1 m
  | Event.reaction r u => ck2 r u

/-! ## Mapping (src/ext.py, class Mapping(dict)) -/

/-- A `Mapping` instance: the entries of the underlying dict, as an
association list (a dict has at most one entry per key). -/
abbrev Mapping := List (String × String)

/-- The `__missing__` hook: `return "\x7b" + str(key) + "\x7d"`. -/
def Mapping.missing (key : String) : String :=
  "\x7b" ++ key ++ "\x7d"

/-- Subscripting a `Mapping`: dict `__getitem__` returns the stored
value for a present key and calls `__missing__` for an absent one. -/
def Mapping.getItem (m : Mapping) (key : String) : String :=
  match List.lookup key m with
  | some v => v
  | none => Mapping.missing key

/-! ## VerboseBot (src/dds/custom/bot.py)

`VerboseBot.__init__` pops `log_channel` and `log_events` out of the
keyword arguments, validates them, and only then calls the library
constructor.  The validation manipulates dynamically typed Python
values, so a small universe of Python values with their truthiness and
`isinstance` behaviour is embedded. -/

/-- A dynamically typed Python value, as far as the validation code can
distinguish them: `dict` and `LogEvents` values carry their entry
count (their truthiness), lists their length. -/
inductive PyVal where
  | pynone : PyVal
  | int (n : Int) : PyVal
  | bool (b : Bool) : PyVal
  | str (s : String) : PyVal
  | float (q : ℚ) : PyVal
  | dict (entries : Nat) : PyVal
  | logEvents (entries : Nat) : PyVal
  | listv (len : Nat) : PyVal
deriving DecidableEq, Repr

/-- Python truthiness of the embedded values. -/
def PyVal.truthy : PyVal → Bool
  | PyVal.pynone => false
  | PyVal.int n => n ≠ 0
  | PyVal.bool b => b
  | PyVal.str s => s ≠ ""
  | PyVal.float q => q ≠ 0
  | PyVal.dict n => n ≠ 0
  | PyVal.logEvents n => n ≠ 0
  | PyVal.listv n => n ≠ 0

/-- Python `isinstance(v, int)`; `bool` is a subclass of `int`. -/
def PyVal.isInstInt : PyVal → Bool
  | PyVal.int _ => true
  | PyVal.bool _ => true
  | _ => false

/-- Python `isinstance(v, (dict, LogEvents))`; `LogEvents` subclasses
`dict`. -/
def PyVal.isInstDictOrLogEvents : PyVal → Bool
  | PyVal.dict _ => true
  | PyVal.logEvents _ => true
  | _ => false

/-- The `LogEvents()` default: a LogEvents dict with its four entries
(connection, on_ready, commands, command_errors). -/
def defaultLogEvents : PyVal := PyVal.logEvents 4

/-- The validation prefix of `VerboseBot.__init__`: `log_channel` is
`kwargs.pop("log_channel", None)` and `log_events` is
`kwargs.pop("log_events", LogEvents())` (`none` here means the keyword
was not supplied).  A `TypeError` is raised — before
`super().__init__` ever runs — exactly when the code raises one;
otherwise the stored `(_logging_channel_id, _logging_events)` pair is
returned. -/
def verboseBotInit (log_channel : Option PyVal) (log_events : Option PyVal) :
    Except String (PyVal × PyVal) :=
  let lc := log_channel.getD PyVal.pynone
  if lc.truthy && !lc.isInstInt then
    Except.error "Logging channel ID is not an integer."
  else
    let le := log_events.getD defaultLogEvents
    if !le.isInstDictOrLogEvents then
      Except.error "Logging events is not a dictionary or LogEvents class."
    else Except.ok (lc, le)

/-! The `_log_bg` coroutine.  The channel-resolution prefix (waiting
until ready and caching `get_channel`) yields either no channel —
in which case the coroutine returns without sending — or a resolved
channel, modelled by the facts the send path reads: the bot member's
permissions in it and how many webhooks it currently has. -/

/-- A resolved logging channel, as read by `_log_bg`:
`permissions_for(guild.me)` and the channel's existing webhooks. -/
structure LogChannel where
  manageWebhooks : Bool
  sendMessages : Bool
  webhooks : Nat
deriving DecidableEq, Repr

/-- The network send `_log_bg` performs, if any. -/
inductive SendAction where
  | webhookSend (createdNew : Bool) (text : String) : SendAction
  | channelSend (text : String) : SendAction
  | noSend : SendAction
deriving DecidableEq, Repr

/-- Model of Python `textwrap.shorten` line filling: greedily extend a
one-line prefix of the words while the line plus the 6-character
placeholder " [...]" still fits in `width`. -/
def fitWords (width : Nat) : List String → String → String
  | [], acc => acc
  | w :: ws, acc =>
      let cand := if acc = "" then w else acc ++ " " ++ w
      if cand.length + 6 ≤ width then fitWords width ws cand else acc

/-- Model of Python `textwrap.shorten text width` (stdlib): collapse all
whitespace runs to single spaces, return the collapsed text if it fits
in `width`, and otherwise the longest word prefix that fits together
with the placeholder " [...]"; when not even one word fits the result
degenerates to "[...]".  (CPython additionally breaks an overlong
first word into width-sized chunks before discarding it again, which
can only change the content of that degenerate case, never the length
bound.) -/
def pyShorten (text : String) (width : Nat) : String :=
  let words := (text.split fun c => c.isWhitespace).filter fun s => s ≠ ""
  let joined := " ".intercalate words
  if joined.length ≤ width then joined
  else
    let truncated := fitWords width words ""
    if truncated = "" then "[...]" else truncated ++ " [...]"

/-- The message text handed to `webhook.send` / `channel.send`:
`shorten(message, 2000) if shorten_if_needed and len(message) > 2000
else message` (identical at both call sites). -/
def logText (message : String) (shortenIfNeeded : Bool) : String :=
  if shortenIfNeeded && decide (message.length > 2000) then
    pyShorten message 2000
  else message

/-- The send path of `_log_bg` once the cached channel lookup has been
performed (`channel = none` models `get_channel` failing, after which
the coroutine returns).  With `manage_webhooks` it sends through a
webhook, creating one when the channel has none and picking an existing
one otherwise; else with `send_messages` it sends a plain channel
message; else it only prints. -/
def log_bg (channel : Option LogChannel) (message : String)
    (shortenIfNeeded : Bool) : SendAction :=
  match channel with
  | none => SendAction.noSend
  | some c =>
      if c.manageWebhooks then
        SendAction.webhookSend (c.webhooks == 0) (logText message shortenIfNeeded)
      else if c.sendMessages then
        SendAction.channelSend (logText message shortenIfNeeded)
      else SendAction.noSend

/-- The text a send action delivers over the network, if any. -/
def sentText : SendAction → Option String
  | SendAction.webhookSend _ t => some t
  | SendAction.channelSend t => some t
  | SendAction.noSend => none

/-! ## Theorems

First the queue worker (claims C1 and C2), then the race helper
(claims C3, C4, C5, C10), then Mapping (claim C8) and VerboseBot
(claims C6, C7, C9). -/

theorem startedIds_append (a b : List WEvent) :
    startedIds (a ++ b) = startedIds a ++ startedIds b := by
  induction a with
  | nil => rfl
  | cons e rest ih =>
    cases e <;> simp [startedIds, ih]

theorem startedIds_queue_worker (jobs : List Job) :
    startedIds (queue_worker jobs) = jobs.map Job.jid := by
  induction jobs with
  | nil => rfl
  | cons j rest ih =>
    cases h : j.outcome <;>
      simp [queue_worker, runIteration, awaitJob, h, startedIds_append,
        startedIds, ih]

theorem serialOK_queue_worker (jobs : List Job) :
    serialOK (queue_worker jobs) = true := by
  induction jobs with
  | nil => rfl
  | cons j rest ih =>
    cases h : j.outcome <;>
      simp [queue_worker, runIteration, awaitJob, h, serialOK, ih]

/-- For claim C1.  The background worker awaits the enqueued jobs in
exactly enqueue order (the sequence of `started` events equals the
enqueued sequence), and the trace is serial: every job is finished, or
its failure logged, and its queue slot marked done before the next job
starts. -/
theorem qolbot_queue_worker_fifo_serial (jobs : List Job) :
    startedIds (queue_worker jobs) = jobs.map Job.jid ∧
      serialOK (queue_worker jobs) = true :=
  ⟨startedIds_queue_worker jobs, serialOK_queue_worker jobs⟩

/-- For claim C2.  A job that raises has its exception caught inside the
iteration (no exception escapes the loop body), its failure is logged,
and every enqueued job — including every job after the failing one — is
still awaited, in order. -/
theorem qolbot_queue_worker_catches_failures (jobs : List Job) (j : Job)
    (m : String) (hj : j ∈ jobs) (hfail : j.outcome = JobOutcome.raises m) :
    (runIteration j).2 = none ∧
      WEvent.loggedError j.jid ∈ queue_worker jobs ∧
      startedIds (queue_worker jobs) = jobs.map Job.jid := by
  refine ⟨?_, ?_, startedIds_queue_worker jobs⟩
  · simp [runIteration, awaitJob, hfail]
  · induction jobs with
    | nil => cases hj
    | cons k rest ih =>
      rcases List.mem_cons.mp hj with hk | hk
      · subst hk
        simp [queue_worker, runIteration, awaitJob, hfail]
      · cases h : k.outcome <;>
          simp [queue_worker, runIteration, awaitJob, h, ih hk]

/-- Witness for `qolbot_queue_worker_catches_failures` at a concrete
three-job queue whose middle job raises. -/
theorem qolbot_queue_worker_catches_failures_witness :
    (runIteration ⟨2, JobOutcome.raises "boom"⟩).2 = none ∧
      WEvent.loggedError 2 ∈
        queue_worker
          [⟨1, JobOutcome.ok⟩, ⟨2, JobOutcome.raises "boom"⟩,
            ⟨3, JobOutcome.ok⟩] ∧
      startedIds
          (queue_worker
            [⟨1, JobOutcome.ok⟩, ⟨2, JobOutcome.raises "boom"⟩,
              ⟨3, JobOutcome.ok⟩]) =
        List.map Job.jid
          [⟨1, JobOutcome.ok⟩, ⟨2, JobOutcome.raises "boom"⟩,
            ⟨3, JobOutcome.ok⟩] :=
  qolbot_queue_worker_catches_failures
    [⟨1, JobOutcome.ok⟩, ⟨2, JobOutcome.raises "boom"⟩, ⟨3, JobOutcome.ok⟩]
    ⟨2, JobOutcome.raises "boom"⟩ "boom" (by decide) rfl

theorem firstMsgMatch_eq_some {check : Message → Bool} {trace : Trace}
    {t : ℚ} {m : Message} (h : firstMsgMatch check trace = some (t, m)) :
    (t, Event.msg m) ∈ trace ∧ check m = true := by
  induction trace with
  | nil => simp [firstMsgMatch] at h
  | cons p rest ih =>
    obtain ⟨tp, e⟩ := p
    cases e with
    | msg m0 =>
      by_cases hc : check m0 = true
      · simp [firstMsgMatch, hc] at h
        obtain ⟨h1, h2⟩ := h
        subst h1; subst h2
        exact ⟨List.mem_cons_self _ _, hc⟩
      · simp [firstMsgMatch, hc] at h
        exact ⟨List.mem_cons_of_mem _ (ih h).1, (ih h).2⟩
    | reaction r u =>
      simp [firstMsgMatch] at h
      exact ⟨List.mem_cons_of_mem _ (ih h).1, (ih h).2⟩

theorem firstReactMatch_eq_some {check : Reaction → User → Bool}
    {trace : Trace} {t : ℚ} {r : Reaction}
    (h : firstReactMatch check trace = some (t, r)) :
    ∃ u, (t, Event.reaction r u) ∈ trace ∧ check r u = true := by
  induction trace with
  | nil => simp [firstReactMatch] at h
  | cons p rest ih =>
    obtain ⟨tp, e⟩ := p
    cases e with
    | msg m0 =>
      simp [firstReactMatch] at h
      obtain ⟨u, hu, hc⟩ := ih h
      exact ⟨u, List.mem_cons_of_mem _ hu, hc⟩
    | reaction r0 u0 =>
      by_cases hc : check r0 u0 = true
      · simp [firstReactMatch, hc] at h
        obtain ⟨h1, h2⟩ := h
        subst h1; subst h2
        exact ⟨u0, List.mem_cons_self _ _, hc⟩
      · simp [firstReactMatch, hc] at h
        obtain ⟨u, hu, hcu⟩ := ih h
        exact ⟨u, List.mem_cons_of_mem _ hu, hcu⟩

/-- For claim C3 (counterexample).  With the supplied timeout `0`,
neither a matching message nor a matching reaction occurs within that
timeout (the only event arrives at time 60 > 0), yet the helper does
not raise `asyncio.TimeoutError`: the `timeout or 120.0` expression
replaces `0` by `120.0`, the message at time 60 resolves the race, and
the helper returns its pair value. -/
theorem wf_timeout_zero_counterexample :
    (∀ p ∈ ([((60 : ℚ), Event.msg ⟨101, "yes", ⟨1⟩, ⟨10⟩⟩)] : Trace),
        ¬ p.1 ≤ (0 : ℚ)) ∧
      wf_msg_or_reaction ⟨⟨1⟩, ⟨10⟩, ⟨100, "q", ⟨1⟩, ⟨10⟩⟩⟩ (some 0) none none
          [("yes", "Y")] [((60 : ℚ), Event.msg ⟨101, "yes", ⟨1⟩, ⟨10⟩⟩)] =
        Except.ok "Y" := by
  constructor
  · decide
  · rfl

/-- For claim C3 (amended).  When no event passing either check in use
arrives within the effective timeout — the supplied timeout, with a
falsy value replaced by 120.0 — the helper raises
`asyncio.TimeoutError`. -/
theorem wf_no_match_in_time_raises_timeout (ctx : Ctx) (timeout : Option ℚ)
    (checks : Option ((Message → Bool) × (Reaction → User → Bool)))
    (message : Option Message) (pairs : Pairs) (trace : Trace)
    (h : ∀ p ∈ trace, p.1 ≤ effTimeout timeout →
      matchesChecks (resolvedChecks ctx checks message pairs).1
          (resolvedChecks ctx checks message pairs).2 p.2 = false) :
    wf_msg_or_reaction ctx timeout checks message pairs trace =
      Except.error PyError.timeoutError := by
  have hmsg : ∀ t m,
      firstMsgMatch (resolvedChecks ctx checks message pairs).1 trace =
        some (t, m) → ¬ t ≤ effTimeout timeout := by
    intro t m hfm ht
    obtain ⟨hmem, hck⟩ := firstMsgMatch_eq_some hfm
    have := h (t, Event.msg m) hmem ht
    simp [matchesChecks] at this
    exact absurd hck (by simp [this])
  have hreact : ∀ t r,
      firstReactMatch (resolvedChecks ctx checks message pairs).2 trace =
        some (t, r) → ¬ t ≤ effTimeout timeout := by
    intro t r hfr ht
    obtain ⟨u, hmem, hck⟩ := firstReactMatch_eq_some hfr
    have := h (t, Event.reaction r u) hmem ht
    simp [matchesChecks] at this
    exact absurd hck (by simp [this])
  unfold wf_msg_or_reaction
  cases hm : firstMsgMatch (resolvedChecks ctx checks message pairs).1 trace with
  | none =>
    cases hr : firstReactMatch (resolvedChecks ctx checks message pairs).2 trace with
    | none => simp [hm, hr, raceOutcome]
    | some p =>
      obtain ⟨t2, r⟩ := p
      simp [hm, hr, raceOutcome, hreact t2 r hr]
  | some p =>
    obtain ⟨t1, m⟩ := p
    cases hr : firstReactMatch (resolvedChecks ctx checks message pairs).2 trace with
    | none => simp [hm, hr, raceOutcome, hmsg t1 m hm]
    | some q =>
      obtain ⟨t2, r⟩ := q
      simp [hm, hr, raceOutcome, hmsg t1 m hm, hreact t2 r hr]

/-- Witness for `wf_no_match_in_time_raises_timeout`: with timeout 5 and
a single matching message arriving only at time 10, the helper raises
`asyncio.TimeoutError`. -/
theorem wf_no_match_in_time_raises_timeout_witness :
    wf_msg_or_reaction ⟨⟨1⟩, ⟨10⟩, ⟨100, "q", ⟨1⟩, ⟨10⟩⟩⟩ (some 5) none none
        [("yes", "Y")] [((10 : ℚ), Event.msg ⟨101, "yes", ⟨1⟩, ⟨10⟩⟩)] =
      Except.error PyError.timeoutError :=
  wf_no_match_in_time_raises_timeout ⟨⟨1⟩, ⟨10⟩, ⟨100, "q", ⟨1⟩, ⟨10⟩⟩⟩
    (some 5) none none [("yes", "Y")]
    [((10 : ℚ), Event.msg ⟨101, "yes", ⟨1⟩, ⟨10⟩⟩)] (by decide)

theorem mem_fst_lookup {pairs : Pairs} {k : String}
    (h : ∃ x, (k, x) ∈ pairs) : ∃ v, List.lookup k pairs = some v := by
  induction pairs with
  | nil => obtain ⟨x, hx⟩ := h; cases hx
  | cons p rest ih =>
    obtain ⟨a, b⟩ := p
    by_cases hk : k = a
    · subst hk
      exact ⟨b, by simp [List.lookup]⟩
    · have hba : (k == a) = false := beq_eq_false_iff_ne.mpr hk
      obtain ⟨x, hx⟩ := h
      rcases List.mem_cons.mp hx with hx | hx
      · cases hx
        exact absurd rfl hk
      · obtain ⟨v, hv⟩ := ih ⟨x, hx⟩
        exact ⟨v, by simp [List.lookup, hba, hv]⟩

/-- For claim C4.  With the default checks, when the first matching
message arrives within the effective timeout and strictly before any
matching reaction, the helper returns `pairs[content.lower()]`: the
emoji value the pairs mapping assigns to that (case-folded) reply. -/
theorem wf_message_first_returns_pair_value (ctx : Ctx) (timeout : Option ℚ)
    (message : Option Message) (pairs : Pairs) (trace : Trace)
    (t1 : ℚ) (m : Message)
    (hm : firstMsgMatch (defaultMessageCheck ctx pairs) trace = some (t1, m))
    (ht : t1 ≤ effTimeout timeout)
    (hr : ∀ t2 r, firstReactMatch
        (defaultReactionCheck ctx (message.getD ctx.message) pairs) trace =
          some (t2, r) → t1 < t2) :
    ∃ v, List.lookup (pyLower m.content) pairs = some v ∧
      wf_msg_or_reaction ctx timeout none message pairs trace =
        Except.ok v := by
  obtain ⟨hmem, hck⟩ := firstMsgMatch_eq_some hm
  have hex : ∃ x, (pyLower m.content, x) ∈ pairs := by
    simp [defaultMessageCheck] at hck
    exact hck.1.1.2
  obtain ⟨v, hv⟩ := mem_fst_lookup hex
  refine ⟨v, hv, ?_⟩
  have hcks : resolvedChecks ctx none message pairs =
      (defaultMessageCheck ctx pairs,
        defaultReactionCheck ctx (message.getD ctx.message) pairs) := rfl
  unfold wf_msg_or_reaction
  rw [hcks]
  cases hre : firstReactMatch
      (defaultReactionCheck ctx (message.getD ctx.message) pairs) trace with
  | none => simp [hm, hre, raceOutcome, ht, hv]
  | some q =>
    obtain ⟨t2, r⟩ := q
    have h12 := hr t2 r hre
    simp [hm, hre, raceOutcome, ht, h12.le, hv]

/-- Witness for `wf_message_first_returns_pair_value`: the reply "yes"
arrives at time 1 with no reaction at all, and the helper returns the
emoji "Y" that the pairs map assigns to "yes". -/
theorem wf_message_first_returns_pair_value_witness :
    ∃ v, List.lookup (pyLower (Message.content ⟨101, "yes", ⟨1⟩, ⟨10⟩⟩))
          [("yes", "Y")] = some v ∧
      wf_msg_or_reaction ⟨⟨1⟩, ⟨10⟩, ⟨100, "q", ⟨1⟩, ⟨10⟩⟩⟩ none none none
          [("yes", "Y")] [((1 : ℚ), Event.msg ⟨101, "yes", ⟨1⟩, ⟨10⟩⟩)] =
        Except.ok v :=
  wf_message_first_returns_pair_value ⟨⟨1⟩, ⟨10⟩, ⟨100, "q", ⟨1⟩, ⟨10⟩⟩⟩
    none none [("yes", "Y")] [((1 : ℚ), Event.msg ⟨101, "yes", ⟨1⟩, ⟨10⟩⟩)]
    1 ⟨101, "yes", ⟨1⟩, ⟨10⟩⟩ (by decide) (by decide)
    (by intro t2 r h; simp [firstReactMatch] at h)

/-- For claim C5.  With the default checks, when the first matching
reaction arrives within the effective timeout and strictly before any
matching message, the helper returns that reaction's emoji. -/
theorem wf_reaction_first_returns_emoji (ctx : Ctx) (timeout : Option ℚ)
    (message : Option Message) (pairs : Pairs) (trace : Trace)
    (t2 : ℚ) (r : Reaction)
    (hre : firstReactMatch
        (defaultReactionCheck ctx (message.getD ctx.message) pairs) trace =
          some (t2, r))
    (ht : t2 ≤ effTimeout timeout)
    (hm : ∀ t1 m, firstMsgMatch (defaultMessageCheck ctx pairs) trace =
        some (t1, m) → t2 < t1) :
    wf_msg_or_reaction ctx timeout none message pairs trace =
      Except.ok r.emoji := by
  have hcks : resolvedChecks ctx none message pairs =
      (defaultMessageCheck ctx pairs,
        defaultReactionCheck ctx (message.getD ctx.message) pairs) := rfl
  unfold wf_msg_or_reaction
  rw [hcks]
  cases hmm : firstMsgMatch (defaultMessageCheck ctx pairs) trace with
  | none => simp [hmm, hre, raceOutcome, ht]
  | some p =>
    obtain ⟨t1, m⟩ := p
    have h21 := hm t1 m hmm
    simp [hmm, hre, raceOutcome, ht, not_le.mpr h21]

/-- Witness for `wf_reaction_first_returns_emoji`: the invoker reacts
with "Y" on the command message at time 2 with no text reply at all,
and the helper returns the emoji "Y". -/
theorem wf_reaction_first_returns_emoji_witness :
    wf_msg_or_reaction ⟨⟨1⟩, ⟨10⟩, ⟨100, "q", ⟨1⟩, ⟨10⟩⟩⟩ none none none
        [("yes", "Y")] [((2 : ℚ), Event.reaction ⟨"Y", 100⟩ ⟨1⟩)] =
      Except.ok (Reaction.emoji ⟨"Y", 100⟩) :=
  wf_reaction_first_returns_emoji ⟨⟨1⟩, ⟨10⟩, ⟨100, "q", ⟨1⟩, ⟨10⟩⟩⟩
    none none [("yes", "Y")] [((2 : ℚ), Event.reaction ⟨"Y", 100⟩ ⟨1⟩)]
    2 ⟨"Y", 100⟩ (by decide) (by decide)
    (by intro t1 m h; simp [firstMsgMatch, defaultMessageCheck] at h)

/-- For claim C10.  A falsy timeout argument (`None`, `0`, `0.0`) is
replaced by the default 120.0 in the `asyncio.wait` call; in
particular, with timeout `0` a matching message at time 60 still
resolves the race instead of timing out immediately. -/
theorem wf_falsy_timeout_defaults (timeout : Option ℚ)
    (h : timeout = none ∨ timeout = some 0) :
    effTimeout timeout = 120 ∧
      wf_msg_or_reaction ⟨⟨2⟩, ⟨20⟩, ⟨200, "pick", ⟨2⟩, ⟨20⟩⟩⟩ (some 0) none
          none [("no", "N")] [((60 : ℚ), Event.msg ⟨201, "no", ⟨2⟩, ⟨20⟩⟩)] =
        Except.ok "N" := by
  constructor
  · rcases h with h | h <;> subst h <;> simp [effTimeout]
  · rfl

/-- Witness for `wf_falsy_timeout_defaults` at the falsy timeout `0`. -/
theorem wf_falsy_timeout_defaults_witness :
    effTimeout (some 0) = 120 ∧
      wf_msg_or_reaction ⟨⟨2⟩, ⟨20⟩, ⟨200, "pick", ⟨2⟩, ⟨20⟩⟩⟩ (some 0) none
          none [("no", "N")] [((60 : ℚ), Event.msg ⟨201, "no", ⟨2⟩, ⟨20⟩⟩)] =
        Except.ok "N" :=
  wf_falsy_timeout_defaults (some 0) (Or.inr rfl)

/-- For claim C8.  Subscripting a Mapping with an absent key returns the
placeholder `"\x7b" ++ key ++ "\x7d"` rather than raising KeyError, and a
present key returns its stored value; hence `format_map` leaves unknown
placeholders intact. -/
theorem mapping_missing_placeholder (m : Mapping) (key : String) :
    (List.lookup key m = none →
        Mapping.getItem m key = "\x7b" ++ key ++ "\x7d") ∧
      (∀ v, List.lookup key m = some v → Mapping.getItem m key = v) := by
  constructor
  · intro h
    simp [Mapping.getItem, h, Mapping.missing]
  · intro v h
    simp [Mapping.getItem, h]

/-- Witness for `mapping_missing_placeholder` on the concrete Mapping
`dict(a := "1")`, probed at the absent key "b" and the present key
"a". -/
theorem mapping_missing_placeholder_witness :
    Mapping.getItem [("a", "1")] "b" = "\x7bb\x7d" ∧
      Mapping.getItem [("a", "1")] "a" = "1" :=
  ⟨(mapping_missing_placeholder [("a", "1")] "b").1 rfl,
    (mapping_missing_placeholder [("a", "1")] "a").2 "1" rfl⟩

/-- For claim C6 (counterexample).  The guard is
`if self._logging_channel_id and not isinstance(..., int)`, so a falsy
non-integer `log_channel` — here the empty string — raises no
TypeError at all: construction succeeds with the malformed channel id
stored. -/
theorem verbosebot_init_falsy_channel_counterexample :
    PyVal.isInstInt (PyVal.str "") = false ∧
      verboseBotInit (some (PyVal.str "")) none =
        Except.ok (PyVal.str "", defaultLogEvents) := by
  constructor
  · rfl
  · rfl

/-- For claim C6 (amended).  If the supplied `log_channel` is truthy and
not an integer, or the `log_events` in effect is not a dictionary (or
LogEvents), `VerboseBot.__init__` raises TypeError synchronously,
before the bot is created; a falsy non-integer `log_channel` is
accepted. -/
theorem verbosebot_init_type_errors (log_channel log_events : Option PyVal)
    (h : ((log_channel.getD PyVal.pynone).truthy = true ∧
        (log_channel.getD PyVal.pynone).isInstInt = false) ∨
      (log_events.getD defaultLogEvents).isInstDictOrLogEvents = false) :
    ∃ e, verboseBotInit log_channel log_events = Except.error e := by
  unfold verboseBotInit
  rcases h with ⟨h1, h2⟩ | h
  · simp [h1, h2]
  · by_cases hc : ((log_channel.getD PyVal.pynone).truthy &&
        !(log_channel.getD PyVal.pynone).isInstInt) = true
    · simp [hc]
    · simp [hc, h]

/-- Witness for `verbosebot_init_type_errors`: a truthy non-integer
channel id (a non-empty string) is rejected. -/
theorem verbosebot_init_type_errors_witness :
    ∃ e, verboseBotInit (some (PyVal.str "general")) none =
      Except.error e :=
  verbosebot_init_type_errors (some (PyVal.str "general")) none
    (Or.inl ⟨rfl, rfl⟩)

/-- For claim C7.  With the manage-webhooks permission `_log_bg`
delivers through a webhook — creating one exactly when the channel has
none — and the webhook path is taken regardless of the send-messages
permission; without manage-webhooks but with send-messages it delivers
as a plain channel message. -/
theorem verbosebot_log_bg_delivery (c : LogChannel) (message : String)
    (sif : Bool) :
    (c.manageWebhooks = true →
      log_bg (some c) message sif =
        SendAction.webhookSend (c.webhooks == 0) (logText message sif)) ∧
    (c.manageWebhooks = false → c.sendMessages = true →
      log_bg (some c) message sif =
        SendAction.channelSend (logText message sif)) := by
  constructor
  · intro h
    simp [log_bg, h]
  · intro h1 h2
    simp [log_bg, h1, h2]

/-- Witness for `verbosebot_log_bg_delivery`: a channel with both
permissions and no webhooks takes the webhook path and creates one; a
channel without manage-webhooks but with send-messages takes the plain
send path. -/
theorem verbosebot_log_bg_delivery_witness :
    log_bg (some ⟨true, true, 0⟩) "hi" true =
        SendAction.webhookSend true (logText "hi" true) ∧
      log_bg (some ⟨false, true, 3⟩) "hi" true =
        SendAction.channelSend (logText "hi" true) :=
  ⟨(verbosebot_log_bg_delivery ⟨true, true, 0⟩ "hi" true).1 rfl,
    (verbosebot_log_bg_delivery ⟨false, true, 3⟩ "hi" true).2 rfl rfl⟩

theorem fitWords_length (width : Nat) (ws : List String) (acc : String)
    (h : acc = "" ∨ acc.length + 6 ≤ width) :
    fitWords width ws acc = "" ∨ (fitWords width ws acc).length + 6 ≤ width := by
  induction ws generalizing acc with
  | nil => simpa [fitWords] using h
  | cons w rest ih =>
    simp only [fitWords]
    by_cases hc : ((if acc = "" then w else acc ++ " " ++ w).length + 6 ≤ width)
    · simp only [if_pos hc]
      exact ih _ (Or.inr hc)
    · simp only [if_neg hc]
      exact h

theorem pyShorten_length_le (text : String) (width : Nat) (hw : 5 ≤ width) :
    (pyShorten text width).length ≤ width := by
  unfold pyShorten
  dsimp only
  split_ifs with h1 h2
  · exact h1
  · have h5 : ("[...]" : String).length = 5 := rfl
    omega
  · rcases fitWords_length width
        ((text.split fun c => c.isWhitespace).filter fun s => s ≠ "") ""
        (Or.inl rfl) with h | h
    · exact absurd h h2
    · have h6 : (" [...]" : String).length = 6 := rfl
      rw [String.length_append]
      omega

/-- For claim C9.  Whatever text `_log_bg` actually delivers (via
webhook or channel send) with `shorten_if_needed` left true is at most
2000 characters long, and a message of at most 2000 characters is
delivered unchanged. -/
theorem verbosebot_log_respects_limit (channel : Option LogChannel)
    (message t : String)
    (h : sentText (log_bg channel message true) = some t) :
    t.length ≤ 2000 ∧ (message.length ≤ 2000 → t = message) := by
  have ht : t = logText message true := by
    cases channel with
    | none => simp [log_bg, sentText] at h
    | some c =>
      by_cases h1 : c.manageWebhooks
      · simp [log_bg, h1, sentText] at h
        exact h.symm
      · by_cases h2 : c.sendMessages
        · simp [log_bg, h1, h2, sentText] at h
          exact h.symm
        · simp [log_bg, h1, h2, sentText] at h
  subst ht
  constructor
  · unfold logText
    by_cases hl : message.length > 2000
    · simpa [hl] using pyShorten_length_le message 2000 (by omega)
    · simp [hl]
      omega
  · intro hle
    unfold logText
    simp [Nat.not_lt.mpr hle]

/-- Witness for `verbosebot_log_respects_limit` on a short message sent
through the webhook path. -/
theorem verbosebot_log_respects_limit_witness :
    ("hi" : String).length ≤ 2000 ∧
      (("hi" : String).length ≤ 2000 → "hi" = "hi") :=
  verbosebot_log_respects_limit (some ⟨true, true, 0⟩) "hi" "hi" rfl

end CustomPy
